import Mathlib

/-!
Shallow embedding of the SAC trainer (src/src/garage/torch/algos/sac.py) and
the greedy argmax policy wrapper (src/garage/torch/policies/argmax.py).

Modelling conventions:
* Tensors are flattened to `List ℚ`; a network parameter set is one `List ℚ`
  (the concatenation of its parameter tensors), so the elementwise update laws
  of the source translate to elementwise laws on lists.
* The policy and Q-function modules are external collaborators in the source;
  they are modelled as records of pure functions (value and analytic gradient
  for a Q-function, sampling and log-likelihood for the policy).  Stochastic
  sampling is modelled as a deterministic function of the parameters and the
  observation (the noise source is folded into the function), which is enough
  for every claim considered here.
* Autograd plus one optimizer step is modelled as: compute the analytic
  gradient of the scalar loss with respect to the tracked parameters, then
  apply the optimizer step function held by the trainer state.
* Python exceptions are modelled explicitly: an operation returns its mutated
  state together with an optional error, since in-place mutations performed
  before a raise persist in Python.
* The two `ipdb.set_trace()` calls in `train_once` are modelled as an effect
  counter `breakpointsHit` on the state, so that their execution is observable.
-/

/-- An observation, flattened to a rational vector. -/
def Obs : Type := List ℚ

/-- An action, flattened to a rational vector. -/
def Act : Type := List ℚ

/-- A minibatch drawn from the replay buffer: parallel lists of equal length.
The `done` flags are stored by the buffer but never read by `update_q_functions`
in this version of the code. -/
structure Sample where
  observation : List Obs
  action : List Act
  reward : List ℚ
  next_observation : List Obs
  done : List Bool

/-- Processed trajectories handed to `train_once` (`process_samples` output):
per-episode undiscounted returns, success indicators and completion flags. -/
structure Paths where
  undiscounted_returns : List ℚ
  success_history : List ℚ
  complete : List Bool

/-- External Q-function module: value and analytic parameter gradient
(the gradient models what autograd computes for a backward pass). -/
structure QArch where
  val : List ℚ → Obs → Act → ℚ
  grad : List ℚ → Obs → Act → List ℚ

/-- External policy module: action sampling (`get_actions`), reparameterized
sampling (`rsample`) and log-likelihood evaluation. -/
structure PolicyArch where
  sample : List ℚ → Obs → Act
  rsample : List ℚ → Obs → Act
  logLik : List ℚ → Obs → Act → ℚ

/-- External replay buffer: number of stored transitions, and a sampling
function indexed by the draw counter (modelling the stream of random draws). -/
structure Buffer where
  nTransitionsStored : ℕ
  sampleFn : ℕ → ℕ → Sample

/-- A Python runtime error relevant to this code path. -/
inductive PyError where
  | attributeError (attr : String)
deriving Repr, DecidableEq

/-- Trainer state: live and target network parameters, the entropy
coefficient, hyperparameters, the replay buffer, the optimizer step functions
(one per optimized parameter set), and bookkeeping. -/
structure SACState where
  qfArch : QArch
  polArch : PolicyArch
  policyParams : List ℚ
  targetPolicyParams : List ℚ
  qf1 : List ℚ
  qf2 : List ℚ
  target_qf1 : List ℚ
  target_qf2 : List ℚ
  alpha : ℚ
  tau : ℚ
  discount : ℚ
  bufferBatchSize : ℕ
  minBufferSize : ℕ
  useAutomaticEntropyTuning : Bool
  replayBuffer : Buffer
  policyOptStep : List ℚ → List ℚ → List ℚ
  qf1OptStep : List ℚ → List ℚ → List ℚ
  qf2OptStep : List ℚ → List ℚ → List ℚ
  drawCount : ℕ
  breakpointsHit : ℕ
  episodeRewards : List ℚ
  successHistory : List ℚ

/-- Mean of a list of rationals (`np.mean` / mean reduction; 0 on empty,
a case no claim relies on). -/
def qmean (l : List ℚ) : ℚ := l.sum / l.length

/-- Mean-squared error with mean reduction, as in the mse loss of the source. -/
def mseLoss (x y : List ℚ) : ℚ :=
  qmean (List.zipWith (fun a b => (a - b) ^ 2) x y)

/-- Scale a vector by a rational. -/
def vecScale (c : ℚ) (v : List ℚ) : List ℚ := v.map (fun x => c * x)

/-- Elementwise vector sum (lengths match for well-formed gradients). -/
def vecAdd (v w : List ℚ) : List ℚ := List.zipWith (· + ·) v w

/-- Sum a list of gradient vectors, starting from the zero vector of the
parameter dimension. -/
def vecSum (d : ℕ) (vs : List (List ℚ)) : List ℚ :=
  vs.foldl vecAdd (List.replicate d 0)

/-- `SAC.__init__` (sac.py lines 55-105), restricted to the trainer fields the
claims concern.  The target policy and both target critics are deep copies of
the live networks; counters and statistics start empty. -/
def SAC_init (qfArch : QArch) (polArch : PolicyArch)
    (policyParams qf1 qf2 : List ℚ) (alpha : ℚ) (replayBuffer : Buffer)
    (useAutomaticEntropyTuning : Bool) (discount : ℚ)
    (bufferBatchSize minBufferSize : ℕ) (target_update_tau : ℚ)
    (policyOptStep qf1OptStep qf2OptStep : List ℚ → List ℚ → List ℚ) :
    SACState :=
  { qfArch := qfArch
    polArch := polArch
    policyParams := policyParams
    targetPolicyParams := policyParams
    qf1 := qf1
    qf2 := qf2
    target_qf1 := qf1
    target_qf2 := qf2
    alpha := alpha
    tau := target_update_tau
    discount := discount
    bufferBatchSize := bufferBatchSize
    minBufferSize := minBufferSize
    useAutomaticEntropyTuning := useAutomaticEntropyTuning
    replayBuffer := replayBuffer
    policyOptStep := policyOptStep
    qf1OptStep := qf1OptStep
    qf2OptStep := qf2OptStep
    drawCount := 0
    breakpointsHit := 0
    episodeRewards := []
    successHistory := [] }

/-- The next actions drawn in `update_q_functions` (sac.py line 151):
`policy.get_actions(next_obs)` under no-gradient evaluation, one action per
next observation, from the live policy parameters. -/
def nextActions (s : SACState) (samples : Sample) : List Act :=
  samples.next_observation.map (s.polArch.sample s.policyParams)

/-- The log-likelihoods of those same sampled next actions (sac.py line 152):
`policy.log_likelihood(next_obs, next_actions)`, evaluated on the very sample
returned by `get_actions`, not on an independent resample. -/
def nextLogLik (s : SACState) (samples : Sample) : List ℚ :=
  List.zipWith (s.polArch.logLik s.policyParams)
    samples.next_observation (nextActions s samples)

/-- The Bellman regression target built in `update_q_functions`
(sac.py lines 161-163) for the critic whose target network has parameters
`tq`: `reward + discount * (target_qf(next_obs, next_actions) - alpha *
next_ll)`.  No `(1 - done)` factor appears anywhere. -/
def bellmanTarget (s : SACState) (tq : List ℚ) (samples : Sample) : List ℚ :=
  let next_acts := nextActions s samples
  let next_ll := nextLogLik s samples
  let targ_out :=
    List.zipWith (s.qfArch.val tq) samples.next_observation next_acts
  let bootstrapped_value :=
    List.zipWith (fun t l => t - s.alpha * l) targ_out next_ll
  List.zipWith (fun r b => r + s.discount * b) samples.reward bootstrapped_value

/-- The critic objective of sac.py line 164 for one critic:
`0.5 * mse_loss(qf(obs, actions).flatten(), bellman)`. -/
def qObjective (s : SACState) (q tq : List ℚ) (samples : Sample) : ℚ :=
  let curr_q_val :=
    List.zipWith (s.qfArch.val q) samples.observation samples.action
  (1 / 2) * mseLoss curr_q_val (bellmanTarget s tq samples)

/-- What autograd computes for `q_objective.backward()`: the analytic gradient
of `0.5 * mean((q_i - y_i)^2)` in the critic parameters, the Bellman target
being detached (built under no-gradient evaluation):
`(1/B) * sum_i (q_i - y_i) * dQ/dtheta (s_i, a_i)`. -/
def qObjectiveGrad (s : SACState) (q tq : List ℚ) (samples : Sample) :
    List ℚ :=
  let curr_q_val :=
    List.zipWith (s.qfArch.val q) samples.observation samples.action
  let bellman := bellmanTarget s tq samples
  let diffs := List.zipWith (fun a b => a - b) curr_q_val bellman
  let pointGrads :=
    List.zipWith (s.qfArch.grad q) samples.observation samples.action
  let weighted := List.zipWith vecScale diffs pointGrads
  vecScale (1 / (curr_q_val.length : ℚ)) (vecSum q.length weighted)

/-- `update_q_functions` (sac.py lines 138-167): sample the next actions and
their log-likelihood once, then for each critic in order (critic 1, then
critic 2) form the Bellman residual objective and take one optimizer step on
that critic's own parameters.  Target networks are only read. -/
def update_q_functions (itr : ℕ) (s : SACState) (samples : Sample) :
    SACState :=
  let _ := itr
  let g1 := qObjectiveGrad s s.qf1 s.target_qf1 samples
  let s1 := { s with qf1 := s.qf1OptStep s.qf1 g1 }
  let g2 := qObjectiveGrad s1 s1.qf2 s1.target_qf2 samples
  { s1 with qf2 := s1.qf2OptStep s1.qf2 g2 }

/-- The actor objective tensor built in `optimize_policy`
(sac.py lines 182-189): reparameterized actions from the live policy,
log-likelihood and min of the two live critics both under no-gradient
evaluation, then `mean(alpha * log_pi - min_q)`. -/
def policyObjective (s : SACState) (samples : Sample) : ℚ :=
  let obs := samples.observation
  let actions := obs.map (s.polArch.rsample s.policyParams)
  let log_pi := List.zipWith (s.polArch.logLik s.policyParams) obs actions
  let min_q :=
    List.zipWith
      (fun o a => min (s.qfArch.val s.qf1 o a) (s.qfArch.val s.qf2 o a))
      obs actions
  qmean (List.zipWith (fun l q => s.alpha * l - q) log_pi min_q)

/-- `optimize_policy` (sac.py lines 169-192): the objective tensor is built and
the optimizer gradients are zeroed, but line 191 then invokes
`policy_objective.backwards()` — a tensor has no attribute of that name, so the
call raises an AttributeError at runtime.  Nothing is backpropagated and the
policy optimizer step on line 192 is never reached, so the state is returned
unchanged together with the error. -/
def optimize_policy (itr : ℕ) (s : SACState) (samples : Sample) :
    SACState × Option PyError :=
  let _ := itr
  let _policy_objective := policyObjective s samples
  (s, some (PyError.attributeError "backwards"))

/-- `adjust_temperature` (sac.py lines 194-195): the body is `pass`. -/
def adjust_temperature (itr : ℕ) (s : SACState) : SACState :=
  let _ := itr
  s

/-- `update_targets` elementwise rule (sac.py lines 205-206):
`t_param <- t_param * (1 - tau) + param * tau`. -/
def polyak (tau : ℚ) (tparams params : List ℚ) : List ℚ :=
  List.zipWith (fun t p => t * (1 - tau) + p * tau) tparams params

/-- `update_targets` (sac.py lines 197-206): Polyak-average both target
critics toward the live critics, and touch nothing else (in particular not the
target policy). -/
def update_targets (s : SACState) : SACState :=
  { s with
    target_qf1 := polyak s.tau s.target_qf1 s.qf1
    target_qf2 := polyak s.tau s.target_qf2 s.qf2 }

/-- `import ipdb; ipdb.set_trace()` — the process suspends for interactive
debugging and resumes when the operator continues; modelled as an observable
effect counter. -/
def set_trace (s : SACState) : SACState :=
  { s with breakpointsHit := s.breakpointsHit + 1 }

/-- The episode returns of completed episodes (sac.py lines 116-119). -/
def completedEntries (vals : List ℚ) (complete : List Bool) : List ℚ :=
  ((List.zip vals complete).filter (fun pc => pc.2)).map (fun pc => pc.1)

/-- `train_once` (sac.py lines 111-136).  Bookkeeping first, then the single
training step (`n_train_steps` is fixed to 1 by the constructor): draw one
minibatch, hit the first breakpoint, update the critics, hit the second
breakpoint, then attempt the policy update.  Because `optimize_policy` raises,
the exception propagates: `adjust_temperature` and `update_targets` are never
reached, and the mutations already performed (critic updates, counters)
persist.  Returns the mutated state and either the running mean return or the
propagated error. -/
def train_once (itr : ℕ) (s : SACState) (paths : Paths) :
    SACState × Except PyError ℚ :=
  let _ := itr
  let s := { s with
    episodeRewards := s.episodeRewards ++
      completedEntries paths.undiscounted_returns paths.complete
    successHistory := s.successHistory ++
      completedEntries paths.success_history paths.complete }
  let last_average_return := qmean s.episodeRewards
  let samples := s.replayBuffer.sampleFn s.drawCount s.bufferBatchSize
  let s := { s with drawCount := s.drawCount + 1 }
  let s := set_trace s
  let s := update_q_functions itr s samples
  let s := set_trace s
  match optimize_policy itr s samples with
  | (s, some e) => (s, Except.error e)
  | (s, none) =>
    let s := adjust_temperature itr s
    let s := update_targets s
    (s, Except.ok last_average_return)

/-- Iterate `train_once`, feeding call `n` the trajectories `pathsSeq n` and
threading the (possibly error-mutated) state. -/
def iterateTrain (pathsSeq : ℕ → Paths) : ℕ → SACState → SACState
  | 0, s => s
  | n + 1, s => (train_once n (iterateTrain pathsSeq n s) (pathsSeq n)).1

/-! ## Greedy argmax policy wrapper (argmax.py) -/

/-- `np.argmax` on a flat vector: index of the first maximal entry. -/
def npArgmax (l : List ℚ) : ℕ :=
  (List.range l.length).foldl
    (fun best i => if l.getD best 0 < l.getD i 0 then i else best) 0

/-- The wrapped Q-function of `ArgmaxDiscretePolicy`: maps a batch of
observations to a batch of per-action value rows. -/
structure ArgmaxDiscretePolicy where
  qf : List Obs → List (List ℚ)

/-- `ArgmaxDiscretePolicy.get_action` (argmax.py lines 17-22): add a leading
batch dimension, evaluate the Q-function, strip the batch dimension
(`squeeze(0)`), and return the argmax index with an empty info dict. -/
def ArgmaxDiscretePolicy.get_action (p : ArgmaxDiscretePolicy) (obs : Obs) :
    ℕ × List (String × ℚ) :=
  let batched := [obs]
  let q_values := (p.qf batched).getD 0 []
  (npArgmax q_values, [])

/-! ## Concrete demonstration instances (used by witness theorems) -/

/-- A one-parameter linear Q-function: `Q(theta, s, a) = theta_0 * (s_0 + a_0)`,
with its analytic gradient. -/
def qArchDemo : QArch :=
  { val := fun th s a => th.getD 0 0 * (s.getD 0 0 + a.getD 0 0)
    grad := fun _ s a => [s.getD 0 0 + a.getD 0 0] }

/-- A one-parameter policy model with deterministic sampling. -/
def polArchDemo : PolicyArch :=
  { sample := fun th s => [th.getD 0 0 * s.getD 0 0]
    rsample := fun th s => [th.getD 0 0 * s.getD 0 0]
    logLik := fun th s a => th.getD 0 0 - s.getD 0 0 * a.getD 0 0 }

/-- Plain gradient-descent optimizer step with learning rate `lr`. -/
def sgdStep (lr : ℚ) : List ℚ → List ℚ → List ℚ :=
  fun th g => List.zipWith (fun t gi => t - lr * gi) th g

/-- A singleton minibatch. -/
def sampleDemo : Sample :=
  { observation := [[1]]
    action := [[2]]
    reward := [3]
    next_observation := [[1]]
    done := [false] }

/-- A replay buffer holding no transitions whose sampler always returns the
demonstration minibatch. -/
def bufferDemo : Buffer :=
  { nTransitionsStored := 0
    sampleFn := fun _ _ => sampleDemo }

/-- One completed trajectory. -/
def pathsDemo : Paths :=
  { undiscounted_returns := [5]
    success_history := [1]
    complete := [true] }

/-- A concrete trainer state built through the constructor. -/
def sDemo : SACState :=
  SAC_init qArchDemo polArchDemo [1] [2] [3] 1 bufferDemo false (1 / 2)
    64 10000 (1 / 2) (sgdStep (1 / 1000)) (sgdStep (1 / 1000))
    (sgdStep (1 / 1000))

/-! ## List helper lemmas -/

lemma zipWith_getD (f : ℚ → ℚ → ℚ) (l₁ l₂ : List ℚ) (i : ℕ)
    (h₁ : i < l₁.length) (h₂ : i < l₂.length) :
    (List.zipWith f l₁ l₂).getD i 0 = f (l₁.getD i 0) (l₂.getD i 0) := by
  induction l₁ generalizing l₂ i with
  | nil => simp at h₁
  | cons a t ih =>
    cases l₂ with
    | nil => simp at h₂
    | cons b u =>
      cases i with
      | zero => rfl
      | succ j =>
        simp only [List.zipWith, List.getD, List.getElem?_cons_succ]
        exact ih u j (by simpa using h₁) (by simpa using h₂)

lemma polyak_zero (t p : List ℚ) (h : t.length = p.length) :
    polyak 0 t p = t := by
  induction t generalizing p with
  | nil => rfl
  | cons a t ih =>
    cases p with
    | nil => simp at h
    | cons b u =>
      simp only [polyak, List.zipWith] at *
      refine congrArg₂ List.cons (by ring) ?_
      exact ih u (by simpa using h)

lemma polyak_one (t p : List ℚ) (h : t.length = p.length) :
    polyak 1 t p = p := by
  induction t generalizing p with
  | nil => cases p with
    | nil => rfl
    | cons b u => simp at h
  | cons a t ih =>
    cases p with
    | nil => simp at h
    | cons b u =>
      simp only [polyak, List.zipWith] at *
      refine congrArg₂ List.cons (by ring) ?_
      exact ih u (by simpa using h)

/-! ## C1: the target-update law -/

/-- C1: one call to `update_targets` replaces each target-critic parameter
elementwise by `(1 - tau) * target_old + tau * live`, reading the live critic
parameters as they stand at call time; with `tau = 0` both target parameter
lists are unchanged and with `tau = 1` both become equal to the live
parameter lists. -/
theorem update_targets_polyak_law (s : SACState)
    (h1 : s.target_qf1.length = s.qf1.length)
    (h2 : s.target_qf2.length = s.qf2.length) :
    (∀ i, i < s.target_qf1.length →
      ((update_targets s).target_qf1).getD i 0 =
        (1 - s.tau) * s.target_qf1.getD i 0 + s.tau * s.qf1.getD i 0) ∧
    (∀ i, i < s.target_qf2.length →
      ((update_targets s).target_qf2).getD i 0 =
        (1 - s.tau) * s.target_qf2.getD i 0 + s.tau * s.qf2.getD i 0) ∧
    (s.tau = 0 → (update_targets s).target_qf1 = s.target_qf1 ∧
      (update_targets s).target_qf2 = s.target_qf2) ∧
    (s.tau = 1 → (update_targets s).target_qf1 = s.qf1 ∧
      (update_targets s).target_qf2 = s.qf2) := by
  refine ⟨fun i hi => ?_, fun i hi => ?_, fun h0 => ?_, fun h1' => ?_⟩
  · show (polyak s.tau s.target_qf1 s.qf1).getD i 0 = _
    rw [polyak, zipWith_getD _ _ _ i hi (h1 ▸ hi)]
    ring
  · show (polyak s.tau s.target_qf2 s.qf2).getD i 0 = _
    rw [polyak, zipWith_getD _ _ _ i hi (h2 ▸ hi)]
    ring
  · exact ⟨by show polyak s.tau _ _ = _; rw [h0]; exact polyak_zero _ _ h1,
      by show polyak s.tau _ _ = _; rw [h0]; exact polyak_zero _ _ h2⟩
  · exact ⟨by show polyak s.tau _ _ = _; rw [h1']; exact polyak_one _ _ h1,
      by show polyak s.tau _ _ = _; rw [h1']; exact polyak_one _ _ h2⟩

/-- C1 witness: the law evaluated on the concrete demonstration state. -/
theorem update_targets_polyak_law_witness :
    sDemo.target_qf1.length = sDemo.qf1.length ∧
    (update_targets sDemo).target_qf1.getD 0 0 =
      (1 - sDemo.tau) * sDemo.target_qf1.getD 0 0 +
        sDemo.tau * sDemo.qf1.getD 0 0 :=
  ⟨by decide,
    (update_targets_polyak_law sDemo (by decide) (by decide)).1 0 (by decide)⟩

lemma zipWith_getD_het {α β γ : Type} (f : α → β → γ) (l₁ : List α)
    (l₂ : List β) (i : ℕ) (d₁ : α) (d₂ : β) (d₃ : γ)
    (h₁ : i < l₁.length) (h₂ : i < l₂.length) :
    (List.zipWith f l₁ l₂).getD i d₃ = f (l₁.getD i d₁) (l₂.getD i d₂) := by
  induction l₁ generalizing l₂ i with
  | nil => simp at h₁
  | cons a t ih =>
    cases l₂ with
    | nil => simp at h₂
    | cons b u =>
      cases i with
      | zero => rfl
      | succ j =>
        simp only [List.zipWith, List.getD, List.getElem?_cons_succ]
        exact ih u j (by simpa using h₁) (by simpa using h₂)

lemma map_getD_het {α β : Type} (f : α → β) (l : List α) (i : ℕ)
    (d₁ : α) (d₂ : β) (h : i < l.length) :
    (l.map f).getD i d₂ = f (l.getD i d₁) := by
  induction l generalizing i with
  | nil => simp at h
  | cons a t ih =>
    cases i with
    | zero => rfl
    | succ j =>
      simp only [List.map, List.getD, List.getElem?_cons_succ]
      exact ih j (by simpa using h)

/-! ## C3: the critic regression target and loss -/

/-- C3: in `update_q_functions`, for either critic (any target parameter list
`tq`), the regression target at index `i` is
`reward_i + discount * (Q_target(sNext_i, aNext_i) - alpha * logpi(aNext_i))`,
where `aNext_i` is the single action drawn from the live policy at the next
observation and the log-likelihood is evaluated on that same sample; the
target is independent of the `done` flags (no `(1 - done)` mask) and of the
target policy parameters, and the loss minimized for a critic with parameters
`q` is `0.5 * MSE(Q(obs, act), target)`. -/
theorem update_q_bellman_law (s : SACState) (tq : List ℚ) (samples : Sample)
    (hB : samples.next_observation.length = samples.reward.length) :
    (∀ i, i < samples.reward.length →
      (bellmanTarget s tq samples).getD i 0 =
        samples.reward.getD i 0 + s.discount *
          (s.qfArch.val tq (samples.next_observation.getD i [])
              (s.polArch.sample s.policyParams
                (samples.next_observation.getD i [])) -
            s.alpha * s.polArch.logLik s.policyParams
              (samples.next_observation.getD i [])
              (s.polArch.sample s.policyParams
                (samples.next_observation.getD i [])))) ∧
    (∀ d, bellmanTarget s tq { samples with done := d } =
      bellmanTarget s tq samples) ∧
    (∀ tp, bellmanTarget { s with targetPolicyParams := tp } tq samples =
      bellmanTarget s tq samples) ∧
    (∀ q, qObjective s q tq samples =
      (1 / 2) * mseLoss
        (List.zipWith (s.qfArch.val q) samples.observation samples.action)
        (bellmanTarget s tq samples)) := by
  refine ⟨fun i hi => ?_, fun d => rfl, fun tp => rfl, fun q => rfl⟩
  have hiN : i < samples.next_observation.length := hB ▸ hi
  have hActs : (nextActions s samples).length =
      samples.next_observation.length := by
    simp [nextActions]
  have hTarg : (List.zipWith (s.qfArch.val tq) samples.next_observation
      (nextActions s samples)).length = samples.next_observation.length := by
    simp [List.length_zipWith, hActs]
  have hLL : (nextLogLik s samples).length =
      samples.next_observation.length := by
    simp [nextLogLik, List.length_zipWith, hActs]
  show (List.zipWith (fun r b => r + s.discount * b) samples.reward
      (List.zipWith (fun t l => t - s.alpha * l)
        (List.zipWith (s.qfArch.val tq) samples.next_observation
          (nextActions s samples))
        (nextLogLik s samples))).getD i 0 = _
  rw [zipWith_getD_het _ _ _ i 0 0 0 hi
    (by simp only [List.length_zipWith, hTarg, hLL, min_self]; exact hiN)]
  rw [zipWith_getD_het _ _ _ i 0 0 0 (hTarg ▸ hiN) (hLL ▸ hiN)]
  rw [zipWith_getD_het _ _ _ i [] [] 0 hiN (hActs ▸ hiN)]
  rw [show nextLogLik s samples =
    List.zipWith (s.polArch.logLik s.policyParams) samples.next_observation
      (nextActions s samples) from rfl]
  rw [zipWith_getD_het _ _ _ i [] [] 0 hiN (hActs ▸ hiN)]
  rw [show nextActions s samples =
    samples.next_observation.map (s.polArch.sample s.policyParams) from rfl]
  rw [map_getD_het _ _ i [] [] hiN]

/-- C3 witness: the law evaluated on the demonstration state, target critic 1
and the singleton minibatch, at index 0. -/
theorem update_q_bellman_law_witness :
    sampleDemo.next_observation.length = sampleDemo.reward.length ∧
    (bellmanTarget sDemo sDemo.target_qf1 sampleDemo).getD 0 0 =
      sampleDemo.reward.getD 0 0 + sDemo.discount *
        (sDemo.qfArch.val sDemo.target_qf1
            (sampleDemo.next_observation.getD 0 [])
            (sDemo.polArch.sample sDemo.policyParams
              (sampleDemo.next_observation.getD 0 [])) -
          sDemo.alpha * sDemo.polArch.logLik sDemo.policyParams
            (sampleDemo.next_observation.getD 0 [])
            (sDemo.polArch.sample sDemo.policyParams
              (sampleDemo.next_observation.getD 0 []))) :=
  ⟨by decide,
    (update_q_bellman_law sDemo sDemo.target_qf1 sampleDemo (by decide)).1 0
      (by decide)⟩

/-! ## C5: frame effect of the critic update -/

/-- C5: one call to `update_q_functions` replaces each critic's parameters by
one optimizer step on the gradient of its own Bellman-residual objective
(critic 1 against target critic 1, critic 2 against target critic 2), leaves
both target critics, both policies, the entropy coefficient and every other
trainer field unchanged, and the two critic updates are independent: changing
critic 2's pre-call parameters does not change critic 1's post-call
parameters, and conversely. -/
theorem update_q_functions_frame (itr : ℕ) (s : SACState) (samples : Sample) :
    (update_q_functions itr s samples).qf1 =
      s.qf1OptStep s.qf1 (qObjectiveGrad s s.qf1 s.target_qf1 samples) ∧
    (update_q_functions itr s samples).qf2 =
      s.qf2OptStep s.qf2 (qObjectiveGrad s s.qf2 s.target_qf2 samples) ∧
    (update_q_functions itr s samples).target_qf1 = s.target_qf1 ∧
    (update_q_functions itr s samples).target_qf2 = s.target_qf2 ∧
    (update_q_functions itr s samples).policyParams = s.policyParams ∧
    (update_q_functions itr s samples).targetPolicyParams =
      s.targetPolicyParams ∧
    (update_q_functions itr s samples).alpha = s.alpha ∧
    (update_q_functions itr s samples).tau = s.tau ∧
    (update_q_functions itr s samples).discount = s.discount ∧
    (update_q_functions itr s samples).drawCount = s.drawCount ∧
    (update_q_functions itr s samples).breakpointsHit = s.breakpointsHit ∧
    (update_q_functions itr s samples).episodeRewards = s.episodeRewards ∧
    (update_q_functions itr s samples).successHistory = s.successHistory ∧
    (∀ q₂, (update_q_functions itr { s with qf2 := q₂ } samples).qf1 =
      (update_q_functions itr s samples).qf1) ∧
    (∀ q₁, (update_q_functions itr { s with qf1 := q₁ } samples).qf2 =
      (update_q_functions itr s samples).qf2) :=
  ⟨rfl, rfl, rfl, rfl, rfl, rfl, rfl, rfl, rfl, rfl, rfl, rfl, rfl,
    fun _ => rfl, fun _ => rfl⟩

/-! ## C2: the actor update never backpropagates -/

/-- C2 is violated by the code: line 191 of sac.py invokes
`policy_objective.backwards()`, but a tensor has no attribute of that name, so
every call of `optimize_policy`, on every state and minibatch, raises an
AttributeError after building the objective; nothing is backpropagated, the
policy optimizer step is never executed, and the trainer state (in particular
the policy parameters) is returned unchanged. -/
theorem optimize_policy_raises (itr : ℕ) (s : SACState) (samples : Sample) :
    optimize_policy itr s samples =
      (s, some (PyError.attributeError "backwards")) :=
  rfl

/-! ## C4, C6, C7: the training-step path -/

/-- C4 is violated at runtime: on the demonstration state, `train_once` draws
its one minibatch and runs the critic update, but then the actor update raises
(the misspelled backpropagation call), so the call returns an error; the
entropy adjustment and the target synchronization are never executed — the
target critic is bit-identical to its pre-call value instead of being
Polyak-averaged toward the freshly updated live critic. -/
theorem train_once_order_broken :
    (train_once 0 sDemo pathsDemo).2 =
      Except.error (PyError.attributeError "backwards") ∧
    (train_once 0 sDemo pathsDemo).1.drawCount = sDemo.drawCount + 1 ∧
    (train_once 0 sDemo pathsDemo).1.qf1 ≠ sDemo.qf1 ∧
    (train_once 0 sDemo pathsDemo).1.target_qf1 = sDemo.target_qf1 ∧
    (train_once 0 sDemo pathsDemo).1.target_qf1 ≠
      polyak sDemo.tau sDemo.target_qf1 (train_once 0 sDemo pathsDemo).1.qf1 :=
  ⟨rfl, rfl, by
    norm_num [train_once, set_trace, update_q_functions, qObjectiveGrad,
      bellmanTarget, nextActions, nextLogLik, vecScale, vecSum, vecAdd,
      sgdStep, sDemo, SAC_init, sampleDemo, pathsDemo, bufferDemo, qArchDemo,
      polArchDemo, completedEntries, optimize_policy, qmean, mseLoss],
    rfl, by
    norm_num [train_once, set_trace, update_q_functions, qObjectiveGrad,
      bellmanTarget, nextActions, nextLogLik, vecScale, vecSum, vecAdd,
      sgdStep, sDemo, SAC_init, sampleDemo, pathsDemo, bufferDemo, qArchDemo,
      polArchDemo, completedEntries, optimize_policy, polyak, qmean, mseLoss]⟩

/-- C6 is violated: every `train_once` call executes the two
`import ipdb; ipdb.set_trace()` statements on the training-step path
(sac.py lines 129 and 131), suspending for interactive debugging twice per
training step before the actor update raises. -/
theorem train_once_hits_breakpoints (itr : ℕ) (s : SACState)
    (paths : Paths) :
    (train_once itr s paths).1.breakpointsHit = s.breakpointsHit + 2 :=
  rfl

/-- C7 is violated: the `min_buffer_size` guard is commented out
(sac.py line 127), so `train_once` calls `replay_buffer.sample`
unconditionally — here on a buffer holding 0 transitions with a configured
minimum of 10000, a draw is still issued. -/
theorem train_once_samples_below_minimum :
    sDemo.replayBuffer.nTransitionsStored = 0 ∧
    sDemo.minBufferSize = 10000 ∧
    (train_once 0 sDemo pathsDemo).1.drawCount = sDemo.drawCount + 1 :=
  ⟨rfl, rfl, rfl⟩

/-! ## C8: the entropy coefficient is never written -/

lemma train_once_alpha (itr : ℕ) (s : SACState) (paths : Paths) :
    (train_once itr s paths).1.alpha = s.alpha :=
  rfl

/-- C8: `adjust_temperature` is a no-op on the trainer state, and the entropy
coefficient alpha is bit-identical across any number of `train_once` calls
(with automatic entropy tuning disabled, as the claim assumes). -/
theorem adjust_temperature_alpha_noop (pathsSeq : ℕ → Paths) (n : ℕ)
    (s : SACState) (_h : s.useAutomaticEntropyTuning = false) :
    (∀ itr s₀, adjust_temperature itr s₀ = s₀) ∧
    (iterateTrain pathsSeq n s).alpha = s.alpha := by
  refine ⟨fun itr s₀ => rfl, ?_⟩
  induction n with
  | zero => rfl
  | succ m ih =>
    show (train_once m (iterateTrain pathsSeq m s) (pathsSeq m)).1.alpha =
      s.alpha
    rw [train_once_alpha]
    exact ih

/-- C8 witness: three training calls on the demonstration state (which has
automatic tuning disabled) leave alpha unchanged. -/
theorem adjust_temperature_alpha_noop_witness :
    sDemo.useAutomaticEntropyTuning = false ∧
    (iterateTrain (fun _ => pathsDemo) 3 sDemo).alpha = sDemo.alpha :=
  ⟨by decide,
    (adjust_temperature_alpha_noop (fun _ => pathsDemo) 3 sDemo
      (by decide)).2⟩

/-! ## C10: the target policy is frozen at its construction snapshot -/

lemma train_once_targetPolicy (itr : ℕ) (s : SACState) (paths : Paths) :
    (train_once itr s paths).1.targetPolicyParams = s.targetPolicyParams :=
  rfl

/-- C10: `update_targets` Polyak-averages only the two target critics and
leaves the target policy untouched, and after any number of `train_once`
calls on a freshly constructed trainer the target policy parameters still
equal the construction-time deep copy of the live policy parameters. -/
theorem target_policy_frozen (qfA : QArch) (polA : PolicyArch)
    (policyParams qf1 qf2 : List ℚ) (alpha : ℚ) (buffer : Buffer)
    (auto : Bool) (discount : ℚ) (bbs mbs : ℕ) (tau : ℚ)
    (pOpt q1Opt q2Opt : List ℚ → List ℚ → List ℚ) (pathsSeq : ℕ → Paths)
    (n : ℕ) :
    (∀ s, (update_targets s).targetPolicyParams = s.targetPolicyParams) ∧
    (iterateTrain pathsSeq n
        (SAC_init qfA polA policyParams qf1 qf2 alpha buffer auto discount
          bbs mbs tau pOpt q1Opt q2Opt)).targetPolicyParams =
      policyParams := by
  refine ⟨fun s => rfl, ?_⟩
  induction n with
  | zero => rfl
  | succ m ih =>
    show (train_once m _ (pathsSeq m)).1.targetPolicyParams = _
    rw [train_once_targetPolicy]
    exact ih

/-! ## C9: the greedy argmax wrapper -/

lemma argmaxFold_mem (l : List ℚ) (is : List ℕ) (b : ℕ) :
    is.foldl (fun best i => if l.getD best 0 < l.getD i 0 then i else best) b
      ∈ b :: is := by
  induction is generalizing b with
  | nil => simp [List.foldl]
  | cons i t ih =>
    simp only [List.foldl]
    rcases List.mem_cons.mp (ih (if l.getD b 0 < l.getD i 0 then i else b))
      with h1 | h1
    · rw [h1]
      by_cases hc : l.getD b 0 < l.getD i 0
      · rw [if_pos hc]
        exact List.mem_cons_of_mem _ (List.mem_cons_self _ _)
      · rw [if_neg hc]
        exact List.mem_cons_self _ _
    · exact List.mem_cons_of_mem _ (List.mem_cons_of_mem _ h1)

lemma argmaxFold_le (l : List ℚ) (is : List ℕ) (b : ℕ) :
    l.getD b 0 ≤
      l.getD (is.foldl
        (fun best i => if l.getD best 0 < l.getD i 0 then i else best) b) 0 ∧
    ∀ j ∈ is, l.getD j 0 ≤
      l.getD (is.foldl
        (fun best i => if l.getD best 0 < l.getD i 0 then i else best) b) 0 := by
  induction is generalizing b with
  | nil => exact ⟨le_refl _, by simp⟩
  | cons i t ih =>
    simp only [List.foldl]
    obtain ⟨h1, h2⟩ := ih (if l.getD b 0 < l.getD i 0 then i else b)
    have hb : l.getD b 0 ≤
        l.getD (if l.getD b 0 < l.getD i 0 then i else b) 0 := by
      by_cases hc : l.getD b 0 < l.getD i 0
      · rw [if_pos hc]
        exact le_of_lt hc
      · rw [if_neg hc]
    have hi : l.getD i 0 ≤
        l.getD (if l.getD b 0 < l.getD i 0 then i else b) 0 := by
      by_cases hc : l.getD b 0 < l.getD i 0
      · rw [if_pos hc]
      · rw [if_neg hc]
        exact le_of_not_lt hc
    refine ⟨le_trans hb h1, fun j hj => ?_⟩
    rcases List.mem_cons.mp hj with rfl | hj'
    · exact le_trans hi h1
    · exact h2 j hj'

lemma npArgmax_lt (l : List ℚ) (h : 0 < l.length) : npArgmax l < l.length := by
  have hm : npArgmax l ∈ 0 :: List.range l.length :=
    argmaxFold_mem l (List.range l.length) 0
  rcases List.mem_cons.mp hm with h1 | h1
  · rw [h1]
    exact h
  · exact List.mem_range.mp h1

lemma npArgmax_le (l : List ℚ) (j : ℕ) (hj : j < l.length) :
    l.getD j 0 ≤ l.getD (npArgmax l) 0 :=
  (argmaxFold_le l (List.range l.length) 0).2 j (List.mem_range.mpr hj)

/-- C9: on a single observation, `get_action` adds a leading batch dimension,
evaluates the one wrapped Q-function, strips the batch dimension again and
returns the index of a maximal per-action value together with an empty info
mapping; the index is in range, attains the maximum over all action values,
and any wrapper holding the same Q-function returns the identical result on
the same observation (determinism across repeated calls). -/
theorem get_action_greedy (p : ArgmaxDiscretePolicy) (obs : Obs)
    (h : 0 < ((p.qf [obs]).getD 0 []).length) :
    (p.get_action obs).2 = [] ∧
    (p.get_action obs).1 = npArgmax ((p.qf [obs]).getD 0 []) ∧
    (p.get_action obs).1 < ((p.qf [obs]).getD 0 []).length ∧
    (∀ j, j < ((p.qf [obs]).getD 0 []).length →
      ((p.qf [obs]).getD 0 []).getD j 0 ≤
        ((p.qf [obs]).getD 0 []).getD (p.get_action obs).1 0) ∧
    (∀ q : ArgmaxDiscretePolicy, q.qf = p.qf →
      q.get_action obs = p.get_action obs) := by
  refine ⟨rfl, rfl, npArgmax_lt _ h, fun j hj => npArgmax_le _ j hj,
    fun q hq => ?_⟩
  show (npArgmax ((q.qf [obs]).getD 0 []), ([] : List (String × ℚ))) = _
  rw [hq]
  rfl

/-- A discrete Q-function wrapper over three actions for the witness. -/
def argmaxDemoPolicy : ArgmaxDiscretePolicy :=
  { qf := fun batch =>
      batch.map (fun o => [o.getD 0 0, o.getD 0 0 + 1, o.getD 0 0 - 1]) }

/-- A concrete single observation for the witness. -/
def obsDemo : Obs := [0]

/-- C9 witness: on the concrete wrapper and observation, the info mapping is
empty and the returned index is in range. -/
theorem get_action_greedy_witness :
    0 < ((argmaxDemoPolicy.qf [obsDemo]).getD 0 []).length ∧
    (argmaxDemoPolicy.get_action obsDemo).2 = [] ∧
    (argmaxDemoPolicy.get_action obsDemo).1 <
      ((argmaxDemoPolicy.qf [obsDemo]).getD 0 []).length :=
  ⟨by decide, (get_action_greedy argmaxDemoPolicy obsDemo (by decide)).1,
    (get_action_greedy argmaxDemoPolicy obsDemo (by decide)).2.2.1⟩
